import Mathlib

/-!
Verification of the IELTS scoring service (`app.py`,
`services/speech_service.py`, `services/writing_service.py`,
`services/speaking_service.py`) against its specification.

The embedding is shallow: pure Python functions become Lean functions on
`ℚ`, `String`, `List Char` and `List Nat`; the filesystem is a partial map
`String → Option (List Nat)`; the external black boxes (the transformer
models, the Whisper ASR engine, the audio decoder) are oracle parameters;
raised exceptions become `Except` values.  Python `float` scores and
durations are modelled by `ℚ` (every comparison in the source is against a
decimal constant, so rational arithmetic is exact here).
-/

/- ============ Python string primitives =============================== -/

/-- ASCII lowering of one character, as Python `str.lower` acts on the
ASCII file-name suffixes this program compares (`Path.suffix.lower()`). -/
def pyLowerChar (c : Char) : Char :=
  if 'A' ≤ c ∧ c ≤ 'Z' then Char.ofNat (c.toNat + 32) else c

/-- Python `str.lower` on a character list. -/
def pyLower (s : List Char) : List Char := s.map pyLowerChar

/-- Split a character list at every occurrence of `sep` (Python
`str.split(sep)` keeps empty groups). -/
def splitOnChar (sep : Char) : List Char → List (List Char)
  | [] => [[]]
  | a :: rest =>
    match splitOnChar sep rest with
    | [] => [[]]
    | g :: gs => if a = sep then [] :: g :: gs else (a :: g) :: gs

/-- Python `str.strip()`: drop leading and trailing whitespace. -/
def pyStrip (s : List Char) : List Char :=
  ((s.dropWhile Char.isWhitespace).reverse.dropWhile Char.isWhitespace).reverse

/-- Split at every whitespace character, keeping empty groups
(helper for Python `str.split()`). -/
def splitWs : List Char → List (List Char)
  | [] => [[]]
  | a :: rest =>
    match splitWs rest with
    | [] => [[]]
    | g :: gs => if a.isWhitespace then [] :: g :: gs else (a :: g) :: gs

/-- Python `len(s.split())`: the number of whitespace-separated words. -/
def pyWordCount (s : String) : Nat :=
  ((splitWs s.data).filter (· ≠ [])).length

/-- The final path component: `pathlib.PurePosixPath(p).name`. -/
def pathName (p : String) : List Char :=
  (splitOnChar '/' p.data).getLastD []

/-- Index of the last occurrence of `c` (Python `str.rfind`),
`none` when absent. -/
def rfindChar (c : Char) (s : List Char) : Option Nat :=
  ((List.range s.length).filter (fun i => s.getD i ' ' = c)).getLast?

/-- `pathlib.PurePosixPath(p).suffix`: CPython computes
`i = name.rfind('.')` and returns `name[i:]` when `0 < i < len(name) - 1`,
else the empty string. -/
def pathSuffix (p : String) : String :=
  let name := pathName p
  match rfindChar '.' name with
  | some i => if 0 < i ∧ i < name.length - 1 then ⟨name.drop i⟩ else ""
  | none => ""

/- ============ Feedback tables (app.py) =============================== -/

def App.writing_fb_lt50 : List (String × String) := [
  ("task_response", "Bài viết chưa trả lời đầy đủ yêu cầu đề bài. Hãy tập trung hiểu rõ câu hỏi và đưa ra các ý chính liên quan."),
  ("coherence_cohesion", "Cấu trúc bài cần cải thiện. Sử dụng các đoạn văn rõ ràng với câu chủ đề và từ nối."),
  ("vocabulary", "Vốn từ vựng còn hạn chế. Cần học thêm từ vựng theo chủ đề và các cụm từ cố định (collocations)."),
  ("grammar", "Nhiều lỗi ngữ pháp ảnh hưởng đến ý nghĩa. Cần luyện tập các cấu trúc câu cơ bản và các thì phổ biến.")
]

def App.writing_fb_lt55 : List (String × String) := [
  ("task_response", "Bài viết đã đề cập đến yêu cầu đề nhưng chưa đầy đủ. Hãy mở rộng ý tưởng với các ví dụ cụ thể và chi tiết hơn."),
  ("coherence_cohesion", "Cấu trúc bài cần cải thiện. Mỗi đoạn văn cần có câu chủ đề rõ ràng và các câu hỗ trợ. Sử dụng đa dạng hơn các từ nối như 'furthermore', 'however', 'consequently'."),
  ("vocabulary", "Vốn từ cơ bản, có xu hướng lặp lại. Hãy học thêm synonyms và các cụm từ học thuật như 'it is widely believed that', 'there is a growing concern about'."),
  ("grammar", "Lỗi ngữ pháp xuất hiện khá thường xuyên. Cần chú ý đến subject-verb agreement, article usage, và các thì động từ.")
]

def App.writing_fb_lt65 : List (String × String) := [
  ("task_response", "Bạn đã trả lời được yêu cầu đề bài nhưng một số điểm có thể phát triển thêm với ví dụ cụ thể hơn."),
  ("coherence_cohesion", "Bài viết có tổ chức hợp lý nhưng có thể cải thiện cách chia đoạn. Sử dụng đa dạng hơn các từ nối và tránh lặp lại 'firstly, secondly, thirdly'."),
  ("vocabulary", "Vốn từ đủ dùng cho bài viết. Hãy thử dùng từ ngữ phức tạp hơn như collocations và idiomatic expressions."),
  ("grammar", "Ngữ pháp khá tốt với một số lỗi nhỏ. Cần luyện thêm các cấu trúc câu phức tạp như relative clauses, conditionals, và passive voice.")
]

def App.writing_fb_lt75 : List (String × String) := [
  ("task_response", "Bài viết phát triển tốt với quan điểm rõ ràng và các ý tưởng mở rộng, liên quan. Để đạt band cao hơn, cần có phân tích sâu sắc hơn."),
  ("coherence_cohesion", "Tổ chức logic với việc sử dụng hiệu quả các phương tiện liên kết. Có thể cải thiện bằng cách sử dụng referencing pronouns và lexical cohesion."),
  ("vocabulary", "Vốn từ phong phú và đa dạng. Tiếp tục mở rộng academic vocabulary và less common lexical items."),
  ("grammar", "Sử dụng đa dạng cấu trúc ngữ pháp với độ chính xác cao. Có thể thử thêm inversions và cleft sentences.")
]

def App.writing_fb_else : List (String × String) := [
  ("task_response", "Bài viết xuất sắc với phân tích sâu sắc và lập luận chặt chẽ. Ý tưởng được phát triển đầy đủ và có tính thuyết phục."),
  ("coherence_cohesion", "Tổ chức hoàn hảo với sự chuyển tiếp mượt mà giữa các ý. Sử dụng thành thạo các phương tiện liên kết."),
  ("vocabulary", "Vốn từ phong phú, chính xác và tự nhiên. Sử dụng thành thạo idioms, collocations và academic vocabulary."),
  ("grammar", "Sử dụng đa dạng và linh hoạt các cấu trúc ngữ pháp phức tạp với độ chính xác gần như hoàn hảo.")
]

/-- `app.py build_writing_feedback`: threshold chain over the band. -/
def App.build_writing_feedback (band : ℚ) : List (String × String) :=
  if band < 5.0 then App.writing_fb_lt50
  else if band < 5.5 then App.writing_fb_lt55
  else if band < 6.5 then App.writing_fb_lt65
  else if band < 7.5 then App.writing_fb_lt75
  else App.writing_fb_else

def App.writing_fb_table : List (List (String × String)) :=
  [App.writing_fb_lt50, App.writing_fb_lt55, App.writing_fb_lt65,
   App.writing_fb_lt75, App.writing_fb_else]

def App.speaking_fb_lt50 : List (String × String) := [
  ("fluency_coherence", "Tốc độ nói còn chậm với nhiều lần dừng. Hãy luyện nói liên tục hơn về các chủ đề quen thuộc."),
  ("vocabulary", "Vốn từ còn hạn chế. Cần học thêm các cụm diễn đạt hàng ngày và từ vựng theo chủ đề."),
  ("grammar", "Còn nhiều lỗi ngữ pháp cơ bản. Tập trung luyện các thì hiện tại, quá khứ và tương lai đơn."),
  ("pronunciation", "Phát âm có thể gây khó hiểu cho người nghe. Luyện tập phát âm từng âm và trọng âm từ.")
]

def App.speaking_fb_lt65 : List (String × String) := [
  ("fluency_coherence", "Bạn có thể duy trì bài nói về chủ đề quen thuộc với một chút do dự. Sử dụng thêm các từ nối."),
  ("vocabulary", "Vốn từ tốt cho các chủ đề quen thuộc. Mở rộng thêm các cụm diễn đạt và collocations."),
  ("grammar", "Kiểm soát tốt các cấu trúc đơn giản. Luyện thêm câu phức và câu điều kiện."),
  ("pronunciation", "Phát âm khá rõ ràng. Cần cải thiện ngữ điệu và cách nối âm.")
]

def App.speaking_fb_else : List (String × String) := [
  ("fluency_coherence", "Bạn nói trôi chảy, chỉ thỉnh thoảng do dự. Sử dụng tuyệt vời các từ nối."),
  ("vocabulary", "Vốn từ phong phú với việc sử dụng tốt thành ngữ và collocations."),
  ("grammar", "Kiểm soát nhất quán các cấu trúc phức tạp, chỉ thỉnh thoảng có lỗi nhỏ."),
  ("pronunciation", "Phát âm rõ ràng, tự nhiên với việc kiểm soát tốt trọng âm và ngữ điệu.")
]

/-- `app.py build_speaking_feedback(cefr, band)`: the `cefr` argument
appears in the signature but not in the body. -/
def App.build_speaking_feedback (cefr : String) (band : ℚ) :
    List (String × String) :=
  if band < 5.0 then App.speaking_fb_lt50
  else if band < 6.5 then App.speaking_fb_lt65
  else App.speaking_fb_else

def App.speaking_fb_table : List (List (String × String)) :=
  [App.speaking_fb_lt50, App.speaking_fb_lt65, App.speaking_fb_else]

/- ============ Feedback tables (writing_service.py) =================== -/

def WritingService.writing_fb_lt50 : List (String × String) := [
  ("task_response", "Bài viết chưa trả lời đầy đủ yêu cầu đề bài. Hãy tập trung hiểu rõ câu hỏi và đưa ra các ý chính liên quan."),
  ("coherence_cohesion", "Cấu trúc bài cần cải thiện. Sử dụng các đoạn văn rõ ràng với câu chủ đề và từ nối."),
  ("vocabulary", "Vốn từ vựng còn hạn chế. Cần học thêm từ vựng theo chủ đề và các cụm từ cố định (collocations)."),
  ("grammar", "Nhiều lỗi ngữ pháp ảnh hưởng đến ý nghĩa. Cần luyện tập các cấu trúc câu cơ bản và các thì phổ biến."),
  ("level", "Cần cải thiện nhiều"),
  ("suggestion", "Tập trung vào việc hiểu đề bài, xây dựng cấu trúc bài viết rõ ràng, và luyện tập ngữ pháp cơ bản.")
]

def WritingService.writing_fb_lt60 : List (String × String) := [
  ("task_response", "Bạn đã trả lời được yêu cầu cơ bản nhưng cần phát triển ý tưởng sâu hơn với ví dụ cụ thể."),
  ("coherence_cohesion", "Bài viết có tổ chức tương đối nhưng cần cải thiện cách liên kết ý. Sử dụng đa dạng từ nối hơn."),
  ("vocabulary", "Vốn từ đủ dùng cho bài viết. Hãy thử dùng từ ngữ đa dạng hơn và tránh lặp từ."),
  ("grammar", "Có một số lỗi ngữ pháp nhưng không ảnh hưởng nhiều đến ý nghĩa. Cần luyện thêm câu phức."),
  ("level", "Đạt yêu cầu cơ bản"),
  ("suggestion", "Phát triển ý tưởng chi tiết hơn, học thêm từ vựng học thuật, và đa dạng hóa cấu trúc câu.")
]

def WritingService.writing_fb_lt70 : List (String × String) := [
  ("task_response", "Bài viết trả lời tốt yêu cầu đề bài với các ý được phát triển khá rõ ràng."),
  ("coherence_cohesion", "Bài viết có logic tốt với việc sử dụng hiệu quả các phương tiện liên kết."),
  ("vocabulary", "Vốn từ khá phong phú, sử dụng được một số từ vựng học thuật và collocations."),
  ("grammar", "Ngữ pháp khá tốt với đa dạng cấu trúc câu. Có một số lỗi nhỏ không đáng kể."),
  ("level", "Khá tốt"),
  ("suggestion", "Để đạt band cao hơn, cần sử dụng từ vựng tinh tế hơn và đa dạng cấu trúc ngữ pháp phức tạp.")
]

def WritingService.writing_fb_lt80 : List (String × String) := [
  ("task_response", "Bài viết phát triển tốt với quan điểm rõ ràng và các ý tưởng mở rộng, có chiều sâu."),
  ("coherence_cohesion", "Tổ chức logic xuất sắc với việc sử dụng linh hoạt các phương tiện liên kết."),
  ("vocabulary", "Vốn từ phong phú, sử dụng linh hoạt và chính xác các từ vựng học thuật."),
  ("grammar", "Sử dụng đa dạng cấu trúc ngữ pháp một cách chính xác và tự nhiên."),
  ("level", "Tốt"),
  ("suggestion", "Bài viết đã ở mức cao. Để hoàn thiện hơn, chú ý đến các chi tiết nhỏ và sự tinh tế trong diễn đạt.")
]

def WritingService.writing_fb_else : List (String × String) := [
  ("task_response", "Bài viết xuất sắc với phân tích sâu sắc và lập luận thuyết phục, đáp ứng hoàn hảo yêu cầu đề."),
  ("coherence_cohesion", "Tổ chức hoàn hảo, mạch lạc tự nhiên, các ý được liên kết một cách tinh tế."),
  ("vocabulary", "Vốn từ phong phú và tinh tế, sử dụng chính xác các từ vựng học thuật và idiomatic expressions."),
  ("grammar", "Ngữ pháp hoàn hảo với đa dạng cấu trúc phức tạp, gần như không có lỗi."),
  ("level", "Xuất sắc"),
  ("suggestion", "Bài viết đạt mức độ rất cao. Tiếp tục duy trì và phát triển phong cách viết của bạn.")
]

/-- `writing_service.py build_writing_feedback`: thresholds 5.0, 6.0,
7.0, 8.0, and six entries per bundle. -/
def WritingService.build_writing_feedback (band : ℚ) :
    List (String × String) :=
  if band < 5.0 then WritingService.writing_fb_lt50
  else if band < 6.0 then WritingService.writing_fb_lt60
  else if band < 7.0 then WritingService.writing_fb_lt70
  else if band < 8.0 then WritingService.writing_fb_lt80
  else WritingService.writing_fb_else

def WritingService.writing_fb_table : List (List (String × String)) :=
  [WritingService.writing_fb_lt50, WritingService.writing_fb_lt60,
   WritingService.writing_fb_lt70, WritingService.writing_fb_lt80,
   WritingService.writing_fb_else]

/- ============ Feedback tables (speaking_service.py) ================== -/

def SpeakingService.speaking_fb_lt50 : List (String × String) := [
  ("fluency_coherence", "Tốc độ nói còn chậm với nhiều lần dừng. Hãy luyện nói liên tục hơn về các chủ đề quen thuộc."),
  ("vocabulary", "Vốn từ còn hạn chế. Cần học thêm các cụm diễn đạt hàng ngày và từ vựng theo chủ đề."),
  ("grammar", "Còn nhiều lỗi ngữ pháp cơ bản. Tập trung luyện các thì hiện tại, quá khứ và tương lai đơn."),
  ("pronunciation", "Phát âm có thể gây khó hiểu cho người nghe. Luyện tập phát âm từng âm và trọng âm từ.")
]

def SpeakingService.speaking_fb_lt65 : List (String × String) := [
  ("fluency_coherence", "Bạn có thể duy trì bài nói về chủ đề quen thuộc với một chút do dự. Sử dụng thêm các từ nối."),
  ("vocabulary", "Vốn từ tốt cho các chủ đề quen thuộc. Mở rộng thêm các cụm diễn đạt và collocations."),
  ("grammar", "Kiểm soát tốt các cấu trúc đơn giản. Luyện thêm câu phức và câu điều kiện."),
  ("pronunciation", "Phát âm khá rõ ràng. Cần cải thiện ngữ điệu và cách nối âm.")
]

def SpeakingService.speaking_fb_else : List (String × String) := [
  ("fluency_coherence", "Bạn nói trôi chảy, chỉ thỉnh thoảng do dự. Sử dụng tuyệt vời các từ nối."),
  ("vocabulary", "Vốn từ phong phú với việc sử dụng tốt thành ngữ và collocations."),
  ("grammar", "Kiểm soát nhất quán các cấu trúc phức tạp, chỉ thỉnh thoảng có lỗi nhỏ."),
  ("pronunciation", "Phát âm rõ ràng, tự nhiên với việc kiểm soát tốt trọng âm và ngữ điệu.")
]

/-- `speaking_service.py build_speaking_feedback(cefr, band)`: same body
as the copy in `app.py`; `cefr` is unused. -/
def SpeakingService.build_speaking_feedback (cefr : String) (band : ℚ) :
    List (String × String) :=
  if band < 5.0 then SpeakingService.speaking_fb_lt50
  else if band < 6.5 then SpeakingService.speaking_fb_lt65
  else SpeakingService.speaking_fb_else

/- ============ Threshold selector (spec section 4.5) ================== -/

/-- Modelled from the spec, for comparison with the source tables: the
index of the first threshold the score is strictly less than, or the
number of thresholds when the score meets or exceeds all of them. -/
def firstLt : List ℚ → ℚ → Nat
  | [], _ => 0
  | t :: ts, s => if s < t then 0 else firstLt ts s + 1

lemma app_writing_select (s : ℚ) :
    App.build_writing_feedback s =
      App.writing_fb_table.getD (firstLt [5.0, 5.5, 6.5, 7.5] s) [] := by
  unfold App.build_writing_feedback
  split_ifs <;> simp [firstLt, App.writing_fb_table, *]

lemma app_speaking_select (c : String) (s : ℚ) :
    App.build_speaking_feedback c s =
      App.speaking_fb_table.getD (firstLt [5.0, 6.5] s) [] := by
  unfold App.build_speaking_feedback
  split_ifs <;> simp [firstLt, App.speaking_fb_table, *]

lemma ws_writing_select (s : ℚ) :
    WritingService.build_writing_feedback s =
      WritingService.writing_fb_table.getD (firstLt [5.0, 6.0, 7.0, 8.0] s) [] := by
  unfold WritingService.build_writing_feedback
  split_ifs <;> simp [firstLt, WritingService.writing_fb_table, *]

lemma app_writing_len (s : ℚ) : (App.build_writing_feedback s).length = 4 := by
  unfold App.build_writing_feedback
  split_ifs <;> rfl

lemma ws_writing_len (s : ℚ) :
    (WritingService.build_writing_feedback s).length = 6 := by
  unfold WritingService.build_writing_feedback
  split_ifs <;> rfl

/-- C2: `feedbackFor` is a pure function of the score returning the
bundle of the first threshold the score is strictly less than (final
bundle otherwise); writing thresholds 5.0, 5.5, 6.5, 7.5 and speaking
thresholds 5.0, 6.5, so the scores 4.9, 5.4, 6.4, 7.4, 8.0 select
writing buckets 0, 1, 2, 3, 4, strictly increasing. -/
theorem C2_feedback_threshold_selection :
    (∀ s : ℚ, App.build_writing_feedback s =
        App.writing_fb_table.getD (firstLt [5.0, 5.5, 6.5, 7.5] s) []) ∧
    (∀ (c : String) (s : ℚ), App.build_speaking_feedback c s =
        App.speaking_fb_table.getD (firstLt [5.0, 6.5] s) []) ∧
    ([(4.9 : ℚ), 5.4, 6.4, 7.4, 8.0].map (firstLt [5.0, 5.5, 6.5, 7.5])
        = [0, 1, 2, 3, 4]) ∧
    List.Chain' (· < ·)
      ([(4.9 : ℚ), 5.4, 6.4, 7.4, 8.0].map (firstLt [5.0, 5.5, 6.5, 7.5])) := by
  refine ⟨app_writing_select, app_speaking_select, ?_, ?_⟩ <;>
    norm_num [firstLt]

/-- C3 counterexample: at band 5.5 the two writing-feedback builders do
not return equal bundles, and they do not even select the same bucket
(index 2 under the app thresholds, index 1 under the service ones). -/
theorem C3_counterexample :
    App.build_writing_feedback 5.5 ≠ WritingService.build_writing_feedback 5.5 ∧
    firstLt [5.0, 5.5, 6.5, 7.5] 5.5 = 2 ∧
    firstLt [5.0, 6.0, 7.0, 8.0] 5.5 = 1 := by
  refine ⟨fun h => ?_, by norm_num [firstLt], by norm_num [firstLt]⟩
  have h2 := congrArg List.length h
  rw [app_writing_len, ws_writing_len] at h2
  omega

/-- C3 amended: the two writing-feedback tables are not copies.  Both
follow the first-threshold selection rule, but `app.py` uses thresholds
5.0, 5.5, 6.5, 7.5 while `writing_service.py` uses 5.0, 6.0, 7.0, 8.0
(so band 5.5 selects bucket 2 in the former and bucket 1 in the latter),
and for every band the two bundles are unequal: the service bundle has
six entries (adding level and suggestion), the app bundle four. -/
theorem C3_writing_tables_differ :
    (∀ s : ℚ, WritingService.build_writing_feedback s =
        WritingService.writing_fb_table.getD (firstLt [5.0, 6.0, 7.0, 8.0] s) []) ∧
    (∀ s : ℚ, (App.build_writing_feedback s).length = 4) ∧
    (∀ s : ℚ, (WritingService.build_writing_feedback s).length = 6) ∧
    (∀ s : ℚ, App.build_writing_feedback s ≠ WritingService.build_writing_feedback s) ∧
    firstLt [5.0, 5.5, 6.5, 7.5] 5.5 = 2 ∧ firstLt [5.0, 6.0, 7.0, 8.0] 5.5 = 1 := by
  refine ⟨ws_writing_select, app_writing_len, ws_writing_len, ?_, ?_, ?_⟩
  · intro s h
    have h2 := congrArg List.length h
    rw [app_writing_len, ws_writing_len] at h2
    omega
  · norm_num [firstLt]
  · norm_num [firstLt]

/-- C10: both copies of `build_speaking_feedback` ignore the CEFR-label
argument — any two labels give equal bundles at every band — and the
bundle is determined solely by which of the three band intervals
(below 5.0, 5.0 to below 6.5, at least 6.5) the score falls in. -/
theorem C10_speaking_feedback_ignores_cefr :
    ∀ (band : ℚ) (c₁ c₂ : String),
      App.build_speaking_feedback c₁ band = App.build_speaking_feedback c₂ band ∧
      SpeakingService.build_speaking_feedback c₁ band
        = SpeakingService.build_speaking_feedback c₂ band ∧
      App.build_speaking_feedback c₁ band
        = App.speaking_fb_table.getD (firstLt [5.0, 6.5] band) [] := by
  intro band c₁ c₂
  exact ⟨rfl, rfl, app_speaking_select c₁ band⟩

/- ============ Speaking prediction (app.py, speaking_service.py) ====== -/

def CEFR_LABELS : List String := ["A1", "A2", "B1", "B2", "C1", "C2"]

/-- The `ID2LABEL` dict built from `enumerate(CEFR_LABELS)`.  An
out-of-range index would be a `KeyError` in Python; it is defaulted to
`""` here and is unreachable from `predict_cefr_and_band`. -/
def ID2LABEL (i : Nat) : String := CEFR_LABELS.getD i ""

/-- The `CEFR_TO_IELTS` dict literal (identical in `app.py` and
`speaking_service.py`), as a partial lookup. -/
def CEFR_TO_IELTS (c : String) : Option ℚ :=
  if c = "A1" then some 2.5
  else if c = "A2" then some 3.5
  else if c = "B1" then some 5.0
  else if c = "B2" then some 6.5
  else if c = "C1" then some 7.5
  else if c = "C2" then some 8.5
  else none

/-- One step of `np.argmax`: keep the current best index unless the
candidate is strictly greater. -/
def argmaxStep (xs : List ℚ) (best i : Nat) : Nat :=
  if xs.getD best 0 < xs.getD i 0 then i else best

/-- `np.argmax(xs)`: index of the first maximum (ties resolve to the
lowest index). -/
def npArgmax (xs : List ℚ) : Nat :=
  (List.range xs.length).foldl (argmaxStep xs) 0

/-- `predict_cefr_and_band` (`app.py` and `speaking_service.py` hold the
same logic): the tokenizer/model forward pass is the external oracle, so
the function starts from the 1×6 logit row; `pred_id` is its argmax, the
label comes from `ID2LABEL` and the band from `CEFR_TO_IELTS.get(cefr, 0.0)`. -/
def predict_cefr_and_band (logits : List ℚ) : String × ℚ :=
  let pred_id := npArgmax logits
  let cefr := ID2LABEL pred_id
  (cefr, (CEFR_TO_IELTS cefr).getD 0)

lemma foldl_argmax_spec (xs : List ℚ) (l : List Nat) :
    ∀ b : Nat,
      (l.foldl (argmaxStep xs) b = b ∨ l.foldl (argmaxStep xs) b ∈ l) ∧
      xs.getD b 0 ≤ xs.getD (l.foldl (argmaxStep xs) b) 0 ∧
      ∀ i ∈ l, xs.getD i 0 ≤ xs.getD (l.foldl (argmaxStep xs) b) 0 := by
  induction l with
  | nil => exact fun b => ⟨Or.inl rfl, le_refl _, by simp⟩
  | cons a t ih =>
    intro b
    obtain ⟨hmem, hle, hall⟩ := ih (argmaxStep xs b a)
    rw [List.foldl_cons]
    have step_le_b : xs.getD b 0 ≤ xs.getD (argmaxStep xs b a) 0 := by
      unfold argmaxStep
      split_ifs with hc
      · exact le_of_lt hc
      · exact le_refl _
    have step_le_a : xs.getD a 0 ≤ xs.getD (argmaxStep xs b a) 0 := by
      unfold argmaxStep
      split_ifs with hc
      · exact le_refl _
      · exact le_of_not_lt hc
    refine ⟨?_, le_trans step_le_b hle, ?_⟩
    · rcases hmem with hh | hh
      · rw [hh]
        unfold argmaxStep
        split_ifs
        · exact Or.inr (List.mem_cons_self a t)
        · exact Or.inl rfl
      · exact Or.inr (List.mem_cons_of_mem a hh)
    · intro i hi
      rcases List.mem_cons.mp hi with rfl | hi
      · exact le_trans step_le_a hle
      · exact hall i hi

lemma npArgmax_lt_length (xs : List ℚ) (h : xs ≠ []) :
    npArgmax xs < xs.length := by
  obtain ⟨hmem, -, -⟩ := foldl_argmax_spec xs (List.range xs.length) 0
  rcases hmem with h0 | h0
  · rw [npArgmax, h0]
    exact List.length_pos.mpr h
  · exact List.mem_range.mp h0

lemma npArgmax_is_max (xs : List ℚ) :
    ∀ i < xs.length, xs.getD i 0 ≤ xs.getD (npArgmax xs) 0 := by
  intro i hi
  obtain ⟨-, -, hall⟩ := foldl_argmax_spec xs (List.range xs.length) 0
  exact hall i (List.mem_range.mpr hi)

/-- C6: the CEFR-to-band mapping is a pure total function on the six
labels: the predicted level is always one of them, the returned band is
exactly the `CEFR_TO_IELTS` lookup of that level (so any two calls whose
predicted labels agree return the same band), and the lookup is defined,
with its fixed value, on each of the six labels. -/
theorem C6_cefr_mapping_pure_total (logits : List ℚ)
    (h : logits.length = 6) :
    (predict_cefr_and_band logits).1 ∈ CEFR_LABELS ∧
    (predict_cefr_and_band logits).2
      = (CEFR_TO_IELTS (predict_cefr_and_band logits).1).getD 0 ∧
    (∀ c ∈ CEFR_LABELS, ∃ b : ℚ, CEFR_TO_IELTS c = some b) ∧
    CEFR_TO_IELTS "A1" = some 2.5 ∧ CEFR_TO_IELTS "A2" = some 3.5 ∧
    CEFR_TO_IELTS "B1" = some 5.0 ∧ CEFR_TO_IELTS "B2" = some 6.5 ∧
    CEFR_TO_IELTS "C1" = some 7.5 ∧ CEFR_TO_IELTS "C2" = some 8.5 ∧
    ∀ logits2 : List ℚ,
      (predict_cefr_and_band logits2).1 = (predict_cefr_and_band logits).1 →
      (predict_cefr_and_band logits2).2 = (predict_cefr_and_band logits).2 := by
  have hne : logits ≠ [] := by
    intro hx
    rw [hx] at h
    simp at h
  have hlt : npArgmax logits < 6 := h ▸ npArgmax_lt_length logits hne
  refine ⟨?_, rfl, ?_, rfl, rfl, rfl, rfl, rfl, rfl, ?_⟩
  · show ID2LABEL (npArgmax logits) ∈ CEFR_LABELS
    interval_cases (npArgmax logits) <;> decide
  · intro c hc
    fin_cases hc <;> exact ⟨_, rfl⟩
  · intro logits2 he
    show (CEFR_TO_IELTS (predict_cefr_and_band logits2).1).getD 0
      = (CEFR_TO_IELTS (predict_cefr_and_band logits).1).getD 0
    rw [he]

/-- C6 witness: the theorem applied at a concrete 6-logit row. -/
theorem C6_witness :
    ([(0 : ℚ), 1, 3, 2, 1, 0].length = 6) ∧
    (predict_cefr_and_band [(0 : ℚ), 1, 3, 2, 1, 0]).1 ∈ CEFR_LABELS :=
  ⟨rfl, (C6_cefr_mapping_pure_total [0, 1, 3, 2, 1, 0] rfl).1⟩

/- ============ Writing prediction (app.py) ============================ -/

def WRITING_BAND_CLASSES : List ℚ :=
  [3.5, 4.0, 4.5, 5.0, 5.5, 6.0, 6.5, 7.0, 7.5, 8.0, 8.5, 9.0]

/-- The `WRITING_IDX_TO_BAND` dict built from
`enumerate(WRITING_BAND_CLASSES)`; an out-of-range index (a `KeyError`
in Python) is defaulted to 0 and is unreachable from
`predict_writing_band`. -/
def WRITING_IDX_TO_BAND (i : Nat) : ℚ := WRITING_BAND_CLASSES.getD i 0

/-- The index order realised by `np.argsort` on the values of `xs`:
ascending by value and, among equal values, ascending by index.  NumPy's
default sort on the 12-element probability array is an insertion sort,
which is stable, and a stable ascending argsort of the index list
`0, …, n-1` orders it exactly by this (value, index) lexicographic
relation. -/
def argsortLe (xs : List ℚ) (i j : Nat) : Prop :=
  xs.getD i 0 < xs.getD j 0 ∨ (xs.getD i 0 = xs.getD j 0 ∧ i ≤ j)

instance (xs : List ℚ) : DecidableRel (argsortLe xs) := fun i j => by
  unfold argsortLe
  infer_instance

instance (xs : List ℚ) : IsTotal Nat (argsortLe xs) where
  total i j := by
    unfold argsortLe
    rcases lt_trichotomy (xs.getD i 0) (xs.getD j 0) with h | h | h
    · exact Or.inl (Or.inl h)
    · rcases le_total i j with hij | hij
      · exact Or.inl (Or.inr ⟨h, hij⟩)
      · exact Or.inr (Or.inr ⟨h.symm, hij⟩)
    · exact Or.inr (Or.inl h)

instance (xs : List ℚ) : IsTrans Nat (argsortLe xs) where
  trans a b c hab hbc := by
    unfold argsortLe at *
    rcases hab with h1 | ⟨e1, le1⟩ <;> rcases hbc with h2 | ⟨e2, le2⟩
    · exact Or.inl (h1.trans h2)
    · exact Or.inl (e2 ▸ h1)
    · exact Or.inl (e1 ▸ h2)
    · exact Or.inr ⟨e1.trans e2, le1.trans le2⟩

/-- `np.argsort(xs)`: the stable ascending argsort of `xs`. -/
def npArgsort (xs : List ℚ) : List Nat :=
  List.insertionSort (argsortLe xs) (List.range xs.length)

/-- `predict_writing_band` (`app.py`): the model forward pass and the
softmax are the external oracle (softmax is strictly order-preserving,
so the class order of `probs` is the class order of the logits); the
function starts from the 12-entry probability row and returns
`(band, confidence, top_predictions)` built from `np.argmax`,
`np.argsort(probs)[::-1][:3]` and `WRITING_IDX_TO_BAND`. -/
def predict_writing_band (probs : List ℚ) : ℚ × ℚ × List (ℚ × ℚ) :=
  let pred_idx := npArgmax probs
  let confidence := probs.getD pred_idx 0
  let top_indices := (npArgsort probs).reverse.take 3
  let top_predictions :=
    top_indices.map (fun idx => (WRITING_IDX_TO_BAND idx, probs.getD idx 0))
  (WRITING_IDX_TO_BAND pred_idx, confidence, top_predictions)

lemma npArgsort_replicate_twelve :
    npArgsort (List.replicate 12 (1 / 12 : ℚ)) = List.range 12 := by
  apply List.Sorted.insertionSort_eq
  refine (List.pairwise_lt_range 12).imp_of_mem ?_
  intro i j hi hj hij
  have hvi : (List.replicate 12 (1 / 12 : ℚ)).getD i 0 = 1 / 12 := by
    rw [List.getD_eq_getElem?_getD, List.getElem?_replicate,
      if_pos (List.mem_range.mp hi), Option.getD_some]
  have hvj : (List.replicate 12 (1 / 12 : ℚ)).getD j 0 = 1 / 12 := by
    rw [List.getD_eq_getElem?_getD, List.getElem?_replicate,
      if_pos (List.mem_range.mp hj), Option.getD_some]
  exact Or.inr ⟨hvi.trans hvj.symm, le_of_lt hij⟩

/-- C4 counterexample: on the uniform probability row (all twelve
classes tied, as produced by equal logits) the code returns the top-3
bands 9.0, 8.5, 8.0 — ties are broken toward the higher class index, not
the lower one claimed (which would give 3.5, 4.0, 4.5). -/
theorem C4_counterexample :
    ((predict_writing_band (List.replicate 12 (1 / 12 : ℚ))).2.2.map
        Prod.fst = [9.0, 8.5, 8.0]) ∧
    ([(9.0 : ℚ), 8.5, 8.0] ≠ [(3.5 : ℚ), 4.0, 4.5]) := by
  constructor
  · show (((npArgsort (List.replicate 12 (1 / 12 : ℚ))).reverse.take 3).map
        _).map Prod.fst = _
    rw [npArgsort_replicate_twelve]
    rfl
  · intro h
    have h0 := List.head_eq_of_cons_eq h
    norm_num at h0

lemma band_strictMono {i j : Nat} (hij : i < j) (hj : j < 12) :
    WRITING_IDX_TO_BAND i < WRITING_IDX_TO_BAND j := by
  interval_cases j <;> interval_cases i <;>
    norm_num [WRITING_IDX_TO_BAND, WRITING_BAND_CLASSES,
      List.getD_cons_succ, List.getD_cons_zero]

/-- C4 amended: for a 12-class probability row, `predict_writing_band`
returns exactly 3 top predictions, sorted descending by probability with
ties broken by the HIGHER class index (the stable ascending argsort is
reversed, so among equal probabilities the higher band comes first, not
the lower band the claim states); the returned band is the band of the
first maximal-probability class (`np.argmax`, ties to the lower index)
and the returned confidence is that class's probability. -/
theorem C4_amended (probs : List ℚ) (h : probs.length = 12) :
    ((predict_writing_band probs).2.2).length = 3 ∧
    List.Pairwise
      (fun p q : ℚ × ℚ => q.2 < p.2 ∨ (p.2 = q.2 ∧ q.1 < p.1))
      ((predict_writing_band probs).2.2) ∧
    (predict_writing_band probs).1 = WRITING_IDX_TO_BAND (npArgmax probs) ∧
    (predict_writing_band probs).2.1 = probs.getD (npArgmax probs) 0 ∧
    (∀ i < 12, probs.getD i 0 ≤ probs.getD (npArgmax probs) 0) := by
  have hperm := List.perm_insertionSort (argsortLe probs) (List.range probs.length)
  have hlen : (npArgsort probs).length = 12 := by
    rw [npArgsort, hperm.length_eq, List.length_range, h]
  have hmem12 : ∀ i ∈ (npArgsort probs).reverse.take 3, i < 12 := by
    intro i hi
    have h2 : i ∈ npArgsort probs := List.mem_reverse.mp (List.mem_of_mem_take hi)
    have h3 : i ∈ List.range probs.length := hperm.mem_iff.mp h2
    rw [h] at h3
    exact List.mem_range.mp h3
  refine ⟨?_, ?_, rfl, rfl, fun i hi => npArgmax_is_max probs i (by rw [h]; exact hi)⟩
  · show (((npArgsort probs).reverse.take 3).map _).length = 3
    rw [List.length_map, List.length_take, List.length_reverse, hlen]
    rfl
  · show List.Pairwise _ (((npArgsort probs).reverse.take 3).map _)
    rw [List.pairwise_map]
    have hp0 : List.Pairwise (fun i j => argsortLe probs j i)
        ((npArgsort probs).reverse.take 3) :=
      List.Pairwise.sublist (List.take_sublist 3 _)
        (List.pairwise_reverse.mpr
          (List.sorted_insertionSort (argsortLe probs) (List.range probs.length)))
    have hnd : List.Pairwise (fun i j : Nat => i ≠ j)
        ((npArgsort probs).reverse.take 3) :=
      List.Pairwise.sublist (List.take_sublist 3 _)
        (List.nodup_reverse.mpr (hperm.nodup_iff.mpr (List.nodup_range _)))
    refine (hp0.and hnd).imp_of_mem ?_
    intro i j hi hj hij
    obtain ⟨hR, hne⟩ := hij
    rcases hR with hlt | ⟨heq, hle⟩
    · exact Or.inl hlt
    · refine Or.inr ⟨heq.symm, ?_⟩
      exact band_strictMono (lt_of_le_of_ne hle fun e => hne e.symm) (hmem12 i hi)

/-- C4 witness: the amended theorem applied at the uniform 12-class row. -/
theorem C4_amended_witness :
    (List.replicate 12 (1 / 12 : ℚ)).length = 12 ∧
    ((predict_writing_band (List.replicate 12 (1 / 12 : ℚ))).2.2).length = 3 :=
  ⟨rfl, (C4_amended (List.replicate 12 (1 / 12 : ℚ)) rfl).1⟩

/- ============ Speech service (speech_service.py) ===================== -/

def SUPPORTED_AUDIO_FORMATS : List String :=
  [".mp3", ".wav", ".m4a", ".flac", ".ogg", ".webm", ".mp4"]

def MAX_AUDIO_DURATION_SECONDS : ℚ := 300

def SAMPLE_RATE : ℚ := 16000

/-- The distinct `AudioValidationError` reasons, one constructor per
`raise` site in `speech_service.py`. -/
inductive AudioErr
  | notFound (path : String)
  | unsupportedFormat (suffix : String)
  | tooLarge (sizeBytes : Nat)
  | empty
  | tooLong (duration : ℚ)
deriving DecidableEq

/-- What escapes `transcribe_audio`: an `AudioValidationError`, or the
`RuntimeError` wrapping any ASR engine failure. -/
inductive TranscribeErr
  | validation (e : AudioErr)
  | runtime (msg : String)
deriving DecidableEq

/-- The filesystem as a partial map from paths to byte contents
(bytes are abstract numbers; only their count and identity matter). -/
def FS : Type := String → Option (List Nat)

/-- The audio-decoder oracle (`whisper.load_audio`): file content to the
number of mono 16 kHz samples, `none` on decode failure. -/
def Decoder : Type := List Nat → Option Nat

/-- One entry of the whisper `segments` list, as far as the service
reads it (`stop` stands for the Python key `end`, a Lean keyword). -/
structure Segment where
  start : ℚ
  stop : ℚ
  text : String
  no_speech_prob : Option ℚ
deriving DecidableEq

/-- The dict returned by whisper `model.transcribe`, as far as the
service reads it: `text`, optional `language`, `segments`. -/
structure AsrOutput where
  text : String
  language : Option String
  segments : List Segment
deriving DecidableEq

/-- The ASR-engine oracle: (audio content, language hint) to a failure
message or an output dict. -/
def Asr : Type := List Nat → String → Except String AsrOutput

structure TranscriptionResult where
  text : String
  language : String
  duration : ℚ
  segments : List Segment
  confidence : Option ℚ
deriving DecidableEq

/-- `validate_audio_file`: existence, then extension, then the 25 MiB
size cap, then non-emptiness — in the source's order. -/
def validate_audio_file (fs : FS) (file_path : String) :
    Except AudioErr Unit :=
  match fs file_path with
  | none => .error (.notFound file_path)
  | some content =>
    let suffix := String.mk (pyLower (pathSuffix file_path).data)
    if suffix ∉ SUPPORTED_AUDIO_FORMATS then
      .error (.unsupportedFormat suffix)
    else
      let file_size := content.length
      if file_size > 25 * 1024 * 1024 then .error (.tooLarge file_size)
      else if file_size = 0 then .error .empty
      else .ok ()

/-- `get_audio_duration`: decode and divide the sample count by 16000;
any failure (unreadable or undecodable file) is swallowed and reported
as duration 0.0. -/
def get_audio_duration (decode : Decoder) (fs : FS) (file_path : String) : ℚ :=
  match fs file_path with
  | none => 0
  | some content =>
    match decode content with
    | some samples => (samples : ℚ) / SAMPLE_RATE
    | none => 0

/-- `transcribe_audio`: validate, check the duration cap, call the ASR
engine (failures wrapped in a `RuntimeError`), strip the text, default
the detected language to the hint, keep segments only when requested,
and derive the confidence from the per-segment no-speech
probabilities. -/
def transcribe_audio (decode : Decoder) (asr : Asr) (fs : FS)
    (file_path : String) (language : String) (include_segments : Bool) :
    Except TranscribeErr TranscriptionResult :=
  match validate_audio_file fs file_path with
  | .error e => .error (.validation e)
  | .ok _ =>
    let duration := get_audio_duration decode fs file_path
    if duration > MAX_AUDIO_DURATION_SECONDS then
      .error (.validation (.tooLong duration))
    else
      match asr ((fs file_path).getD []) language with
      | .error msg => .error (.runtime ("Transcription failed: " ++ msg))
      | .ok result =>
        let text := String.mk (pyStrip result.text.data)
        let detected_language := result.language.getD language
        let segments := if include_segments then result.segments else []
        let confidence : Option ℚ :=
          if segments ≠ [] then
            let probs := segments.map (fun seg => seg.no_speech_prob.getD 0)
            if probs ≠ [] then
              some (1 - probs.sum / (probs.length : ℚ))
            else none
          else none
        .ok ⟨text, detected_language, duration, segments, confidence⟩

/-- The fresh path `tempfile.NamedTemporaryFile(delete=False,
suffix=suffix)` yields, modelled as a fixed name built from the suffix;
freshness against the ambient filesystem is a hypothesis where it
matters. -/
def temp_path (suffix : String) : String := "/tmp/tmpaudio" ++ suffix

/-- `transcribe_audio_bytes`: derive and check the lower-cased suffix
(empty suffix defaults to `.wav`), write the bytes to a scoped temporary
file, transcribe, and — as the `temp_audio_file` context manager's
`finally` guarantees — unlink the temporary file on every exit path.
Returns the outcome together with the final filesystem. -/
def transcribe_audio_bytes (decode : Decoder) (asr : Asr) (fs : FS)
    (audio_bytes : List Nat) (filename : String) (language : String)
    (include_segments : Bool) :
    Except TranscribeErr TranscriptionResult × FS :=
  let suffix0 := String.mk (pyLower (pathSuffix filename).data)
  let suffix := if suffix0 = "" then ".wav" else suffix0
  if suffix ∉ SUPPORTED_AUDIO_FORMATS then
    (.error (.validation (.unsupportedFormat suffix)), fs)
  else
    let path := temp_path suffix
    let fs1 : FS := fun p => if p = path then some audio_bytes else fs p
    let r := transcribe_audio decode asr fs1 path language include_segments
    let fs2 : FS := fun p => if p = path then none else fs1 p
    (r, fs2)

def noDecode : Decoder := fun _ => none

def noAsr : Asr := fun _ _ => .error "engine failure"

def emptyFS : FS := fun _ => none

lemma temp_suffix_eval (s : String) (hs : s ∈ SUPPORTED_AUDIO_FORMATS) :
    String.mk (pyLower (pathSuffix (temp_path s)).data) = s := by
  fin_cases hs <;> rfl

lemma validate_eval (fs : FS) (path : String) (bytes : List Nat)
    (s : String) (hfs : fs path = some bytes)
    (hsuf : String.mk (pyLower (pathSuffix path).data) = s)
    (hs : s ∈ SUPPORTED_AUDIO_FORMATS) :
    validate_audio_file fs path
      = (if bytes.length > 25 * 1024 * 1024 then
            .error (.tooLarge bytes.length)
         else if bytes.length = 0 then .error .empty
         else .ok ()) := by
  unfold validate_audio_file
  rw [hfs]
  dsimp only
  rw [hsuf, if_neg (not_not_intro hs)]

lemma duration_eval (decode : Decoder) (fs : FS) (path : String)
    (bytes : List Nat) (hfs : fs path = some bytes) :
    get_audio_duration decode fs path
      = (match decode bytes with
         | some n => (n : ℚ) / SAMPLE_RATE
         | none => 0) := by
  unfold get_audio_duration
  rw [hfs]

/-- C1 counterexample: an empty payload with unsupported extension
`.xyz` is rejected with the unsupported-format reason, not the
empty-payload reason the claim's check order (emptiness first) would
give: the extension check runs before the emptiness check. -/
theorem C1_counterexample :
    (transcribe_audio_bytes noDecode noAsr emptyFS [] "a.xyz" "en" false).1
        = .error (.validation (.unsupportedFormat ".xyz")) ∧
    AudioErr.unsupportedFormat ".xyz" ≠ AudioErr.empty := by
  exact ⟨rfl, by decide⟩

/-- C1 amended: in `transcribe_audio_bytes` the validation checks run in
the order (1) filename extension (lower-cased, empty defaulting to
`.wav`) in the supported set, (2) byte length at most 25 MiB, (3) byte
length nonzero, (4) decoded duration at most 300 seconds; each check
fails fast with its own distinct `AudioValidationError` reason (an input
violating an earlier check gets that earlier reason whatever else it
violates), and when all four pass no validation error is raised. -/
theorem C1_amended (decode : Decoder) (asr : Asr) (fs : FS)
    (audio_bytes : List Nat) (filename language : String) (inc : Bool)
    (suffix : String)
    (hsuf : (if String.mk (pyLower (pathSuffix filename).data) = ""
        then ".wav" else String.mk (pyLower (pathSuffix filename).data))
      = suffix) :
    (suffix ∉ SUPPORTED_AUDIO_FORMATS →
      (transcribe_audio_bytes decode asr fs audio_bytes filename language inc).1
        = .error (.validation (.unsupportedFormat suffix))) ∧
    (suffix ∈ SUPPORTED_AUDIO_FORMATS →
      audio_bytes.length > 25 * 1024 * 1024 →
      (transcribe_audio_bytes decode asr fs audio_bytes filename language inc).1
        = .error (.validation (.tooLarge audio_bytes.length))) ∧
    (suffix ∈ SUPPORTED_AUDIO_FORMATS →
      audio_bytes.length ≤ 25 * 1024 * 1024 → audio_bytes.length = 0 →
      (transcribe_audio_bytes decode asr fs audio_bytes filename language inc).1
        = .error (.validation .empty)) ∧
    (∀ n : Nat, suffix ∈ SUPPORTED_AUDIO_FORMATS →
      0 < audio_bytes.length → audio_bytes.length ≤ 25 * 1024 * 1024 →
      decode audio_bytes = some n →
      MAX_AUDIO_DURATION_SECONDS < (n : ℚ) / SAMPLE_RATE →
      (transcribe_audio_bytes decode asr fs audio_bytes filename language inc).1
        = .error (.validation (.tooLong ((n : ℚ) / SAMPLE_RATE)))) ∧
    (suffix ∈ SUPPORTED_AUDIO_FORMATS →
      0 < audio_bytes.length → audio_bytes.length ≤ 25 * 1024 * 1024 →
      (∀ n : Nat, decode audio_bytes = some n →
        (n : ℚ) / SAMPLE_RATE ≤ MAX_AUDIO_DURATION_SECONDS) →
      ∀ e : AudioErr,
        (transcribe_audio_bytes decode asr fs audio_bytes filename language inc).1
          ≠ .error (.validation e)) := by
  have hfs1 : ∀ s : String,
      (if temp_path s = temp_path s then some audio_bytes else fs (temp_path s))
        = some audio_bytes := fun s => if_pos rfl
  have hneg : suffix ∉ SUPPORTED_AUDIO_FORMATS →
      (transcribe_audio_bytes decode asr fs audio_bytes filename language inc).1
        = .error (.validation (.unsupportedFormat suffix)) := by
    intro hs
    unfold transcribe_audio_bytes
    dsimp only
    rw [hsuf, if_pos hs]
  have hrun : suffix ∈ SUPPORTED_AUDIO_FORMATS →
      (transcribe_audio_bytes decode asr fs audio_bytes filename language inc).1
        = transcribe_audio decode asr
            (fun p => if p = temp_path suffix then some audio_bytes else fs p)
            (temp_path suffix) language inc := by
    intro hs
    unfold transcribe_audio_bytes
    dsimp only
    rw [hsuf, if_neg (not_not_intro hs)]
  refine ⟨hneg, ?_, ?_, ?_, ?_⟩
  · intro hs h2
    rw [hrun hs]
    unfold transcribe_audio
    rw [validate_eval _ _ audio_bytes suffix (hfs1 suffix)
      (temp_suffix_eval suffix hs) hs, if_pos h2]
  · intro hs h2 h3
    rw [hrun hs]
    unfold transcribe_audio
    rw [validate_eval _ _ audio_bytes suffix (hfs1 suffix)
      (temp_suffix_eval suffix hs) hs, if_neg (not_lt.mpr h2), if_pos h3]
  · intro n hs h1 h2 hdec hdur
    rw [hrun hs]
    unfold transcribe_audio
    rw [validate_eval _ _ audio_bytes suffix (hfs1 suffix)
      (temp_suffix_eval suffix hs) hs, if_neg (not_lt.mpr h2),
      if_neg (Nat.pos_iff_ne_zero.mp h1)]
    dsimp only
    rw [duration_eval decode _ _ audio_bytes (hfs1 suffix), hdec]
    dsimp only
    rw [if_pos hdur]
  · intro hs h1 h2 hdur e
    rw [hrun hs]
    unfold transcribe_audio
    rw [validate_eval _ _ audio_bytes suffix (hfs1 suffix)
      (temp_suffix_eval suffix hs) hs, if_neg (not_lt.mpr h2),
      if_neg (Nat.pos_iff_ne_zero.mp h1)]
    dsimp only
    rw [duration_eval decode _ _ audio_bytes (hfs1 suffix)]
    rcases hd : decode audio_bytes with - | n
    · dsimp only
      rw [if_neg (by norm_num [MAX_AUDIO_DURATION_SECONDS])]
      rw [hfs1 suffix]
      cases hasr : asr audio_bytes language <;> simp [hasr]
    · dsimp only
      rw [if_neg (not_lt.mpr (hdur n hd))]
      rw [hfs1 suffix]
      cases hasr : asr audio_bytes language <;> simp [hasr]

/-- C1 witness: the amended theorem applied to an empty payload carrying
the supported extension `.wav`: the rejection reason is the emptiness
one, reached only after the extension and size checks pass. -/
theorem C1_amended_witness :
    (transcribe_audio_bytes noDecode noAsr emptyFS [] "a.wav" "en" false).1
      = .error (.validation .empty) :=
  (C1_amended noDecode noAsr emptyFS [] "a.wav" "en" false ".wav"
      (by decide)).2.2.1 (by decide) (by decide) rfl

/-- C7: for every successful transcription, the confidence is
`1 − mean(no-speech probability)` over the result's segments when at
least one segment is present, and is absent (`none`) when the result
carries no segments — in particular whenever segments were not
requested. -/
theorem C7_confidence_from_segments (decode : Decoder) (asr : Asr)
    (fs : FS) (path language : String) (inc : Bool)
    (res : TranscriptionResult)
    (h : transcribe_audio decode asr fs path language inc = .ok res) :
    (res.segments = [] → res.confidence = none) ∧
    (res.segments ≠ [] → res.confidence
        = some (1 -
            (res.segments.map (fun seg => seg.no_speech_prob.getD 0)).sum
              / (res.segments.length : ℚ))) ∧
    (inc = false → res.confidence = none) := by
  unfold transcribe_audio at h
  rcases hv : validate_audio_file fs path with e | u
  · rw [hv] at h
    exact absurd h (by simp)
  · rw [hv] at h
    dsimp only at h
    by_cases hdur :
        get_audio_duration decode fs path > MAX_AUDIO_DURATION_SECONDS
    · rw [if_pos hdur] at h
      exact absurd h (by simp)
    · rw [if_neg hdur] at h
      rcases hasr : asr ((fs path).getD []) language with msg | out
      · rw [hasr] at h
        exact absurd h (by simp)
      · rw [hasr] at h
        dsimp only at h
        rw [Except.ok.injEq] at h
        subst h
        cases inc with
        | false =>
          refine ⟨fun _ => by simp, fun hseg => ?_, fun _ => by simp⟩
          simp at hseg
        | true =>
          refine ⟨fun hseg => ?_, fun hseg => ?_,
            fun hinc => by simp at hinc⟩
          · have hseg2 : out.segments = [] := by simpa using hseg
            simp [hseg2]
          · have hseg2 : out.segments ≠ [] := by simpa using hseg
            have hmap : List.map
                (fun seg => seg.no_speech_prob.getD 0) out.segments ≠ [] := by
              simpa using hseg2
            simp [hseg2, hmap]

/-- A one-file filesystem used by concrete witnesses. -/
def oneFS : FS := fun p => if p = "/tmp/a.wav" then some [1] else none

/-- A concrete segment with no-speech probability 0, for witnesses. -/
def witSeg : Segment := ⟨0, 1, "hello", some 0⟩

/-- An ASR oracle returning one segment with no-speech probability 0. -/
def segAsr : Asr := fun _ _ => .ok ⟨"hello", some "en", [witSeg]⟩

/-- The confidence the service computes for the `segAsr` run. -/
def witConfidence : Option ℚ :=
  some (1 - (([witSeg] : List Segment).map
      (fun seg => seg.no_speech_prob.getD 0)).sum
    / ((([witSeg] : List Segment).map
      (fun seg => seg.no_speech_prob.getD 0)).length : ℚ))

/-- C7 witness: the theorem applied to a concrete run that produces one
segment; the confidence equals one minus the mean no-speech
probability. -/
theorem C7_confidence_witness :
    (⟨"hello", "en", 0, [witSeg], witConfidence⟩
        : TranscriptionResult).confidence
      = some (1 -
          (([witSeg] : List Segment).map
              (fun seg => seg.no_speech_prob.getD 0)).sum
            / (([witSeg] : List Segment).length : ℚ)) :=
  (C7_confidence_from_segments noDecode segAsr oneFS "/tmp/a.wav" "en" true
      ⟨"hello", "en", 0, [witSeg], witConfidence⟩
      rfl).2.1 (by simp [witSeg])

/-- C8: on every exit path of `transcribe_audio_bytes` — early extension
rejection, validation failure inside `transcribe_audio`, ASR failure, or
success — the temporary file is deleted before the operation completes:
provided the temporary name is fresh, the final filesystem equals the
initial one whatever the oracles return. -/
theorem C8_temp_file_released (decode : Decoder) (asr : Asr) (fs : FS)
    (audio_bytes : List Nat) (filename language : String) (inc : Bool)
    (hfresh : ∀ s : String, fs (temp_path s) = none) :
    (transcribe_audio_bytes decode asr fs audio_bytes filename language
        inc).2 = fs := by
  unfold transcribe_audio_bytes
  dsimp only
  split_ifs <;>
    first
      | rfl
      | (funext p
         dsimp only
         split_ifs with hp
         · rw [hp, hfresh]
         · rfl)

/-- C8 witness: the theorem applied to a concrete run over the empty
filesystem (every temporary name fresh). -/
theorem C8_temp_file_released_witness :
    (∀ s : String, emptyFS (temp_path s) = none) ∧
    (transcribe_audio_bytes noDecode noAsr emptyFS [0] "b.mp3" "en"
        false).2 = emptyFS :=
  ⟨fun _ => rfl,
    C8_temp_file_released noDecode noAsr emptyFS [0] "b.mp3" "en" false
      (fun _ => rfl)⟩

/-- C9: when decoding fails, `get_audio_duration` returns 0.0 instead of
raising, so an undecodable file passes the 300-second duration check and
reaches the ASR invocation: an ASR failure then surfaces as the
`RuntimeError` wrapper (never an `AudioValidationError`), and an ASR
success yields a normal result. -/
theorem C9_undecodable_passes_duration_check (decode : Decoder)
    (asr : Asr) (fs : FS) (path language : String) (inc : Bool)
    (content : List Nat)
    (hfile : fs path = some content)
    (hdec : decode content = none)
    (hval : validate_audio_file fs path = .ok ()) :
    get_audio_duration decode fs path = 0 ∧
    (∀ msg : String, asr content language = .error msg →
      transcribe_audio decode asr fs path language inc
        = .error (.runtime ("Transcription failed: " ++ msg))) ∧
    (∀ out : AsrOutput, asr content language = .ok out →
      ∃ res : TranscriptionResult,
        transcribe_audio decode asr fs path language inc = .ok res) := by
  have hdur : get_audio_duration decode fs path = 0 := by
    unfold get_audio_duration
    rw [hfile]
    dsimp only
    rw [hdec]
  refine ⟨hdur, ?_, ?_⟩
  · intro msg hasr
    unfold transcribe_audio
    rw [hval]
    dsimp only
    rw [hdur, if_neg (by norm_num [MAX_AUDIO_DURATION_SECONDS]), hfile,
      Option.getD_some, hasr]
  · intro out hasr
    unfold transcribe_audio
    rw [hval]
    dsimp only
    rw [hdur, if_neg (by norm_num [MAX_AUDIO_DURATION_SECONDS]), hfile,
      Option.getD_some, hasr]
    exact ⟨_, rfl⟩

/-- C9 witness: the theorem applied to a concrete filesystem whose one
file the decoder rejects, with the ASR succeeding anyway. -/
theorem C9_undecodable_witness :
    get_audio_duration noDecode oneFS "/tmp/a.wav" = 0 ∧
    ∃ res : TranscriptionResult,
      transcribe_audio noDecode segAsr oneFS "/tmp/a.wav" "en" false
        = .ok res := by
  have h := C9_undecodable_passes_duration_check noDecode segAsr oneFS
    "/tmp/a.wav" "en" false [1] rfl rfl rfl
  exact ⟨h.1, h.2.2 _ rfl⟩

/- ============ Audio-scoring endpoint (app.py) ======================== -/

/-- An `HTTPException` as the handler raises it: status plus detail. -/
inductive ApiError
  | http (status : Nat) (detail : String)
deriving DecidableEq

/-- The fields of the `score_speaking_audio` success response. -/
structure SpeakingAudioResponse where
  transcript : String
  transcript_language : String
  transcript_duration : ℚ
  word_count : Nat
  confidence : Option ℚ
  cefr_level : String
  approx_ielts_band : ℚ
  feedback : List (String × String)
deriving DecidableEq

/-- The `str(e)` detail of each `AudioValidationError`; the interpolated
numeric and list fragments of the Python messages are abbreviated to
their fixed prefixes (no claim depends on these strings). -/
def audioErrDetail : AudioErr → String
  | .notFound _ => "Audio file not found"
  | .unsupportedFormat _ => "Unsupported audio format"
  | .tooLarge _ => "Audio file too large"
  | .empty => "Audio file is empty"
  | .tooLong _ => "Audio too long"

/-- `score_speaking_audio` (`app.py`, the `/api/speaking/score-audio`
handler): whisper-disabled guard (503), empty-upload guard (400),
transcription (validation errors to 400, runtime errors to 500), the
minimum-transcript check (400), then CEFR prediction and feedback.
`cefr_logits` is the speaking-model oracle; a missing upload filename
defaults to `audio.wav`. -/
def score_speaking_audio (enable_whisper : Bool) (decode : Decoder)
    (asr : Asr) (cefr_logits : String → List ℚ) (fs : FS)
    (audio_bytes : List Nat) (filename : Option String)
    (language : String) : Except ApiError SpeakingAudioResponse :=
  if ¬ enable_whisper then
    .error (.http 503
      "Speech-to-text is disabled. Set ENABLE_WHISPER=True to enable.")
  else if audio_bytes.length = 0 then
    .error (.http 400 "Empty audio file")
  else
    match (transcribe_audio_bytes decode asr fs audio_bytes
        (filename.getD "audio.wav") language false).1 with
    | .error (.validation e) => .error (.http 400 (audioErrDetail e))
    | .error (.runtime m) =>
      .error (.http 500 ("Failed to process audio: " ++ m))
    | .ok result =>
      let transcript := result.text
      if transcript = "" ∨ (pyStrip transcript.data).length < 10 then
        .error (.http 400
          "Could not extract meaningful text from audio. Please ensure clear speech.")
      else
        let p := predict_cefr_and_band (cefr_logits transcript)
        .ok ⟨transcript, result.language, result.duration,
          pyWordCount transcript, result.confidence, p.1, p.2,
          App.build_speaking_feedback p.1 p.2⟩

/-- C5: in the audio-scoring flow, a transcription that succeeds but
whose text strips to fewer than 10 characters is rejected with HTTP 400
and the could-not-extract-meaningful-text detail, for every
speaking-model oracle (so no CEFR prediction is consulted); the
rejection presupposes a successful transcription, hence is distinct
from the structural audio validations. -/
theorem C5_short_transcript_rejected (decode : Decoder) (asr : Asr)
    (fs : FS) (audio_bytes : List Nat) (filename : Option String)
    (language : String) (res : TranscriptionResult)
    (hbytes : audio_bytes.length ≠ 0)
    (htr : (transcribe_audio_bytes decode asr fs audio_bytes
        (filename.getD "audio.wav") language false).1 = .ok res)
    (hshort : (pyStrip res.text.data).length < 10) :
    ∀ cefr_logits : String → List ℚ,
      score_speaking_audio true decode asr cefr_logits fs audio_bytes
          filename language
        = .error (.http 400
            "Could not extract meaningful text from audio. Please ensure clear speech.") := by
  intro cefr_logits
  unfold score_speaking_audio
  rw [if_neg (by simp), if_neg hbytes, htr]
  dsimp only
  rw [if_pos (Or.inr hshort)]

/-- An ASR oracle whose transcript is shorter than 10 characters. -/
def shortAsr : Asr := fun _ _ => .ok ⟨"hi", some "en", []⟩

/-- C5 witness: the theorem applied to a concrete upload whose ASR
output is the two-character transcript `hi`. -/
theorem C5_short_transcript_witness :
    score_speaking_audio true noDecode shortAsr
        (fun _ => [0, 0, 0, 0, 0, 0]) emptyFS [1] none "en"
      = .error (.http 400
          "Could not extract meaningful text from audio. Please ensure clear speech.") :=
  C5_short_transcript_rejected noDecode shortAsr emptyFS [1] none "en"
    ⟨"hi", "en", 0, [], none⟩ (by decide) rfl (by decide)
    (fun _ => [0, 0, 0, 0, 0, 0])
